import Mathlib

/-!
Shallow embedding of `Keysight_E3631A.py`, the control driver for the
Keysight E3631A triple-output bench power supply.

Python floats are idealised as rationals (`ℚ`); Python's `round`
(round-half-to-even) and `math.isclose` are modelled exactly on `ℚ`.
Raising an exception is modelled by an `Except`-style result carried in
an `OpResult` record that also keeps the state reached at the raise
point and the list of wire commands sent before it, so that "raised
before any command was sent / state unmodified" are real statements
about the model rather than artefacts of purity.
-/

namespace E3631A

/-- One of the three output rails of the instrument. -/
inductive Channel where
  | P6V
  | P25V
  | N25V
deriving DecidableEq, Repr

/-- Which setpoint of a channel an operation addresses. -/
inductive Kind where
  | voltage
  | current
deriving DecidableEq, Repr

/-- The channel identifier string used on the wire. -/
def channelStr : Channel → String
  | .P6V => "P6V"
  | .P25V => "P25V"
  | .N25V => "N25V"

/-- The kind name as it appears in the source's messages. -/
def kindStr : Kind → String
  | .voltage => "voltage"
  | .current => "current"

-- Factory limit constants (module-level constants of the source;
-- leading underscores dropped for Lean identifiers).
def FACTORY_MIN_P6V_VOLTAGE : ℚ := 0
def FACTORY_MAX_P6V_VOLTAGE : ℚ := 6
def FACTORY_MIN_P25V_VOLTAGE : ℚ := 0
def FACTORY_MAX_P25V_VOLTAGE : ℚ := 25
def FACTORY_MIN_N25V_VOLTAGE : ℚ := -25
def FACTORY_MAX_N25V_VOLTAGE : ℚ := 0

def FACTORY_MIN_P6V_CURRENT : ℚ := 0
def FACTORY_MAX_P6V_CURRENT : ℚ := 5
def FACTORY_MIN_P25V_CURRENT : ℚ := 0
def FACTORY_MAX_P25V_CURRENT : ℚ := 1
def FACTORY_MIN_N25V_CURRENT : ℚ := 0
def FACTORY_MAX_N25V_CURRENT : ℚ := 1

/-- Default timeout value (`DEFAULT_TIMEOUT = 15`). -/
def DEFAULT_TIMEOUT : ℤ := 15

/-- `_SUPPLY_RESOLVED_DIGITS = 4`. -/
def SUPPLY_RESOLVED_DIGITS : ℕ := 4

/-- The mutable module-level `USER_*` limit globals, gathered in a
record so that operations can be stated for any current value of the
user limits.  Field names match the source globals. -/
structure UserLimits where
  USER_MIN_P6V_VOLTAGE : ℚ
  USER_MAX_P6V_VOLTAGE : ℚ
  USER_MIN_P25V_VOLTAGE : ℚ
  USER_MAX_P25V_VOLTAGE : ℚ
  USER_MIN_N25V_VOLTAGE : ℚ
  USER_MAX_N25V_VOLTAGE : ℚ
  USER_MIN_P6V_CURRENT : ℚ
  USER_MAX_P6V_CURRENT : ℚ
  USER_MIN_P25V_CURRENT : ℚ
  USER_MAX_P25V_CURRENT : ℚ
  USER_MIN_N25V_CURRENT : ℚ
  USER_MAX_N25V_CURRENT : ℚ
deriving DecidableEq, Repr

/-- The source initialises every user limit to the factory limit. -/
def defaultUserLimits : UserLimits where
  USER_MIN_P6V_VOLTAGE := FACTORY_MIN_P6V_VOLTAGE
  USER_MAX_P6V_VOLTAGE := FACTORY_MAX_P6V_VOLTAGE
  USER_MIN_P25V_VOLTAGE := FACTORY_MIN_P25V_VOLTAGE
  USER_MAX_P25V_VOLTAGE := FACTORY_MAX_P25V_VOLTAGE
  USER_MIN_N25V_VOLTAGE := FACTORY_MIN_N25V_VOLTAGE
  USER_MAX_N25V_VOLTAGE := FACTORY_MAX_N25V_VOLTAGE
  USER_MIN_P6V_CURRENT := FACTORY_MIN_P6V_CURRENT
  USER_MAX_P6V_CURRENT := FACTORY_MAX_P6V_CURRENT
  USER_MIN_P25V_CURRENT := FACTORY_MIN_P25V_CURRENT
  USER_MAX_P25V_CURRENT := FACTORY_MAX_P25V_CURRENT
  USER_MIN_N25V_CURRENT := FACTORY_MIN_N25V_CURRENT
  USER_MAX_N25V_CURRENT := FACTORY_MAX_N25V_CURRENT

/-- The six mirrored setpoints of the instance (`self._P6V_voltage`
etc., class attributes initialised with `float()`, i.e. `0.0`). -/
structure SupplyState where
  P6V_voltage : ℚ
  P25V_voltage : ℚ
  N25V_voltage : ℚ
  P6V_current : ℚ
  P25V_current : ℚ
  N25V_current : ℚ
deriving DecidableEq, Repr

/-- State at instance creation: all mirrors are `float() = 0.0`. -/
def initState : SupplyState := ⟨0, 0, 0, 0, 0, 0⟩

/-- The exceptions the modelled code can raise, structured by raise
site; each constructor carries exactly the values interpolated into
the source's message string at that site. -/
inductive PyErr where
  /-- `ValueError` from a factory-limit check in a `set_*` method:
  output name, the unit letter used in the message, the attempted
  value and the two interpolated bounds. -/
  | factoryLimit (output unit : String) (value vmin vmax : ℚ)
  /-- `ValueError` from a user-limit check in a `set_*` method. -/
  | userLimit (output unit : String) (value vmin vmax : ℚ)
  /-- `ValueError` from `_generate_apply_command` on an unknown output. -/
  | invalidOutput (out : String)
  /-- `ValueError` from `float()` applied to a non-numeric string. -/
  | floatParse (s : String)
  /-- `ValueError` from unpacking `result.split(',')` into two names
  when the split does not yield exactly two fields. -/
  | unpackMismatch
  /-- `AssertionError` from the consistency check in a `get_*` method:
  output, kind, the class-held value and the supply-reported value. -/
  | assertionFailed (output kind : String) (cls supply : ℚ)
  /-- `RuntimeError` from a `del_*` method. -/
  | runtimeDelete (msg : String)
  /-- `TypeError` from `int(None)` in `__init__`. -/
  | typeErrorIntNone
deriving DecidableEq, Repr

instance {ε α : Type} [DecidableEq ε] [DecidableEq α] :
    DecidableEq (Except ε α) := fun x y =>
  match x, y with
  | .ok a, .ok b =>
      if h : a = b then isTrue (by rw [h])
      else isFalse (fun hh => h (Except.ok.inj hh))
  | .error a, .error b =>
      if h : a = b then isTrue (by rw [h])
      else isFalse (fun hh => h (Except.error.inj hh))
  | .ok _, .error _ => isFalse (fun hh => Except.noConfusion hh)
  | .error _, .ok _ => isFalse (fun hh => Except.noConfusion hh)

/-- Result of one channel-controller operation: the state at return or
at the raise point, the wire commands sent before returning/raising
(in order), and the returned value or the exception raised. -/
structure OpResult (α : Type) where
  state : SupplyState
  sent : List String
  result : Except PyErr α
deriving Repr, DecidableEq

/-! ### Python numerics: `round` (half-to-even) and fixed-point formatting -/

/-- Round a rational to the nearest integer, ties to the even integer
(Python's `round` semantics on the idealised value). -/
def roundHalfEven (q : ℚ) : ℤ :=
  let f : ℤ := ⌊q⌋
  let frac : ℚ := q - f
  if frac < 1/2 then f
  else if 1/2 < frac then f + 1
  else if f % 2 = 0 then f else f + 1

/-- `round(q, n)`: round to `n` decimal digits, ties to even. -/
def pyRound (q : ℚ) (n : ℕ) : ℚ :=
  (roundHalfEven (q * 10 ^ n) : ℚ) / 10 ^ n

/-- The character for a decimal digit `n % 10`. -/
def digitChar (n : ℕ) : Char := Char.ofNat (48 + n % 10)

/-- Exactly six decimal digits of `n < 10^6`, most significant first. -/
def pad6 (n : ℕ) : String :=
  String.mk [digitChar (n / 100000), digitChar (n / 10000),
             digitChar (n / 1000), digitChar (n / 100),
             digitChar (n / 10), digitChar n]

/-- `'{:6f}'.format(q)`: fixed-point with the default precision of six
digits after the decimal point (the width-6 minimum is always met
since the precision already forces at least eight characters). -/
def format6f (q : ℚ) : String :=
  let r : ℤ := roundHalfEven (q * 1000000)
  (if r < 0 then "-" else "") ++ Nat.repr (r.natAbs / 1000000)
    ++ "." ++ pad6 (r.natAbs % 1000000)

/-- `math.isclose(a, b)` with the default tolerances
`rel_tol=1e-9`, `abs_tol=0.0`. -/
def pyIsClose (a b : ℚ) : Bool :=
  |a - b| ≤ max ((1 / 1000000000) * max |a| |b|) 0

/-- ASCII upper-casing of one character (`str.upper` acts only on
ASCII letters for every string this driver handles). -/
def pyUpperChar (c : Char) : Char :=
  if 'a' ≤ c ∧ c ≤ 'z' then Char.ofNat (c.toNat - 32) else c

/-- `s.upper()`. -/
def pyUpper (s : String) : String :=
  String.mk (s.data.map pyUpperChar)

/-! ### Python values passed to the codec -/

/-- The values the source passes for `voltage` / `current` to
`_generate_apply_command`: `None`, a string, or a number. -/
inductive PyVal where
  | none
  | str (s : String)
  | num (q : ℚ)
deriving DecidableEq, Repr

/-- `str(v).upper()`.  For numbers, Python's `str` of a float shows a
different number of digits than `format6f`; only the fact that it is a
digit-bearing decimal string (hence never one of the tokens `''`,
`'DEF'`, `'MIN'`, `'MAX'`) matters to the code that inspects it, so the
fixed-point rendering serves as its model (`.upper()` is the identity
on its alphabet of sign, digits and point). -/
def pyStrUpper : PyVal → String
  | .none => "NONE"
  | .str s => pyUpper s
  | .num q => format6f q

/-- `float(v)` on the values above; `Option.none` stands for the
`ValueError`/`TypeError` that `float` raises.  The string parser models
the decimal-literal subset of Python's `float` grammar — an optional
sign, digits with an optional fractional part; exponents and the
`inf`/`nan` spellings are outside the subset exercised here. -/
def natOfDigits (cs : List Char) : ℕ :=
  cs.foldl (fun a c => 10 * a + (c.toNat - 48)) 0

/-- Parse a decimal-literal string to a rational, or fail. -/
def parseFloat (s : String) : Option ℚ :=
  let cs := s.data
  let neg : Bool := match cs with
    | '-' :: _ => true
    | _ => false
  let cs := match cs with
    | '-' :: rest => rest
    | '+' :: rest => rest
    | _ => cs
  let intDigits := cs.takeWhile Char.isDigit
  let rest := cs.dropWhile Char.isDigit
  let mag : Option ℚ :=
    match rest with
    | [] => if intDigits.isEmpty then Option.none
            else some (natOfDigits intDigits : ℚ)
    | '.' :: fracPart =>
        let fracDigits := fracPart.takeWhile Char.isDigit
        if ¬(fracPart.dropWhile Char.isDigit).isEmpty then Option.none
        else if intDigits.isEmpty ∧ fracDigits.isEmpty then Option.none
        else some ((natOfDigits intDigits : ℚ)
                   + (natOfDigits fracDigits : ℚ) / 10 ^ fracDigits.length)
    | _ => Option.none
  mag.map (fun m => if neg then -m else m)

/-- `float(v)` for the codec's else-branch. -/
def pyFloat : PyVal → Option ℚ
  | .none => Option.none
  | .str s => parseFloat s
  | .num q => some q

/-- `str(v)` without upper-casing, as interpolated into the message of
the `ValueError` that `float` raises. -/
def pyStr : PyVal → String
  | .none => "None"
  | .str s => s
  | .num q => format6f q

/-! ### The command codec: `_generate_apply_command` -/

/-- The token set tested by
`str(voltage).upper() in ('','DEF','MIN','MAX')`. -/
def applyTokens : List String := ["", "DEF", "MIN", "MAX"]

/-- The per-argument rendering that `_generate_apply_command` performs
identically (and textually twice) for `voltage` and for `current`:
token passthrough (with the `None → ''` substitution) or six-decimal
fixed-point formatting of `float(v)`. -/
def renderVal (v : PyVal) : Except PyErr String :=
  if pyStrUpper v ∈ applyTokens ∨ v = PyVal.none then
    let v' := if v = PyVal.none then PyVal.str "" else v
    .ok (pyStrUpper v')
  else
    match pyFloat v with
    | some q => .ok (format6f q)
    | Option.none => .error (.floatParse (pyStr v))

/-- `_generate_apply_command(output, voltage, current, request)`:
validates the (upper-cased) output name, renders both arguments, then
emits either the request form `APPLy? {out}` or the set form
`APPLy {out},{volt},{curr}`. -/
def generate_apply_command (output : String) (voltage current : PyVal)
    (request : Bool) : Except PyErr String :=
  let output := pyUpper output
  if output ∈ ["P6V", "P25V", "N25V"] then
    match renderVal voltage with
    | .error e => .error e
    | .ok voltage_str =>
      match renderVal current with
      | .error e => .error e
      | .ok current_str =>
        if request then
          .ok ("APPLy? " ++ output)
        else
          .ok ("APPLy " ++ output ++ "," ++ voltage_str ++ "," ++ current_str)
  else
    .error (.invalidOutput output)

/-! ### Serial layer: framing, timeout policy -/

/-- `s.endswith(suffix)`. -/
def pyEndsWith (s suffix : String) : Bool :=
  suffix.data.isSuffixOf s.data

/-- The slice `s[:-n]` for `0 < n ≤ len(s)`: drop the last `n`
characters. -/
def pyDropRight (s : String) (n : ℕ) : String :=
  String.mk (s.data.take (s.data.length - n))

/-- The response post-processing of `send_scpi_command`: the decoded
reply loses a trailing `"\r\n"` if present and is otherwise returned
unchanged (an empty read surfaces as the empty string). -/
def decode_response (raw : String) : String :=
  if pyEndsWith raw "\r\n" then pyDropRight raw 2 else raw

/-- `result.split(',')` with Python semantics for an explicit
separator: the empty string yields `[""]`, adjacent separators yield
empty fields. -/
def splitCommaAux : List Char → List Char → List String
  | [], acc => [String.mk acc.reverse]
  | c :: rest, acc =>
      if c = ',' then String.mk acc.reverse :: splitCommaAux rest []
      else splitCommaAux rest (c :: acc)

/-- `s.split(',')`. -/
def pySplitComma (s : String) : List String :=
  splitCommaAux s.data []

/-- `int(x)` applied to the `timeout` constructor argument, whose type
is an optional integer (`None` meaning "no timeout"): `int(None)`
raises `TypeError`. -/
def init_serial_timeout (timeout : Option ℤ) : Except PyErr ℤ :=
  match timeout with
  | Option.none => .error .typeErrorIntNone
  | some t => .ok t

/-- The timeout logic of `_send_raw_scpi_command`, reduced to its
observable effect: given the stored `self._serial_timeout`, the pair of
(timeout in effect during `readline`, timeout on the port afterwards).
When the stored timeout is `None` the bounded `DEFAULT_TIMEOUT` is
substituted for the read and the old value restored afterwards;
otherwise the stored value is used as-is. -/
def send_raw_timeouts (configured : Option ℤ) : Option ℤ × Option ℤ :=
  match configured with
  | Option.none => (some DEFAULT_TIMEOUT, Option.none)
  | some t => (some t, some t)

/-! ### Channel controller: the six `set_*` methods

Each mirrors its source method: factory check on the raw argument,
user check on the raw argument, `round(·, 4)`, assignment to the
mirror, then the non-request `APPLy` command built from the (updated)
mirrored voltage and current.  A failed check raises with nothing sent
and the state untouched. -/

def set_P6V_voltage (ul : UserLimits) (s : SupplyState) (volt : ℚ) :
    OpResult Unit :=
  if FACTORY_MIN_P6V_VOLTAGE ≤ volt ∧ volt ≤ FACTORY_MAX_P6V_VOLTAGE then
    if ul.USER_MIN_P6V_VOLTAGE ≤ volt ∧ volt ≤ ul.USER_MAX_P6V_VOLTAGE then
      let volt := pyRound volt SUPPLY_RESOLVED_DIGITS
      let s' := { s with P6V_voltage := volt }
      match generate_apply_command "P6V" (.num s'.P6V_voltage)
          (.num s'.P6V_current) false with
      | .ok command => ⟨s', [command], .ok ()⟩
      | .error e => ⟨s', [], .error e⟩
    else
      ⟨s, [], .error (.userLimit "P6V" "V" volt
        ul.USER_MIN_P6V_VOLTAGE ul.USER_MAX_P6V_VOLTAGE)⟩
  else
    ⟨s, [], .error (.factoryLimit "P6V" "V" volt
      FACTORY_MIN_P6V_VOLTAGE FACTORY_MAX_P6V_VOLTAGE)⟩

def set_P6V_current (ul : UserLimits) (s : SupplyState) (curr : ℚ) :
    OpResult Unit :=
  if FACTORY_MIN_P6V_CURRENT ≤ curr ∧ curr ≤ FACTORY_MAX_P6V_CURRENT then
    -- note: the source's user-limit message for currents interpolates
    -- the unit letter `V`, not `A`; mirrored as-is.
    if ul.USER_MIN_P6V_CURRENT ≤ curr ∧ curr ≤ ul.USER_MAX_P6V_CURRENT then
      let curr := pyRound curr SUPPLY_RESOLVED_DIGITS
      let s' := { s with P6V_current := curr }
      match generate_apply_command "P6V" (.num s'.P6V_voltage)
          (.num s'.P6V_current) false with
      | .ok command => ⟨s', [command], .ok ()⟩
      | .error e => ⟨s', [], .error e⟩
    else
      ⟨s, [], .error (.userLimit "P6V" "V" curr
        ul.USER_MIN_P6V_CURRENT ul.USER_MAX_P6V_CURRENT)⟩
  else
    ⟨s, [], .error (.factoryLimit "P6V" "A" curr
      FACTORY_MIN_P6V_CURRENT FACTORY_MAX_P6V_CURRENT)⟩

def set_P25V_voltage (ul : UserLimits) (s : SupplyState) (volt : ℚ) :
    OpResult Unit :=
  if FACTORY_MIN_P25V_VOLTAGE ≤ volt ∧ volt ≤ FACTORY_MAX_P25V_VOLTAGE then
    if ul.USER_MIN_P25V_VOLTAGE ≤ volt ∧ volt ≤ ul.USER_MAX_P25V_VOLTAGE then
      let volt := pyRound volt SUPPLY_RESOLVED_DIGITS
      let s' := { s with P25V_voltage := volt }
      match generate_apply_command "P25V" (.num s'.P25V_voltage)
          (.num s'.P25V_current) false with
      | .ok command => ⟨s', [command], .ok ()⟩
      | .error e => ⟨s', [], .error e⟩
    else
      ⟨s, [], .error (.userLimit "P25V" "V" volt
        ul.USER_MIN_P25V_VOLTAGE ul.USER_MAX_P25V_VOLTAGE)⟩
  else
    ⟨s, [], .error (.factoryLimit "P25V" "V" volt
      FACTORY_MIN_P25V_VOLTAGE FACTORY_MAX_P25V_VOLTAGE)⟩

def set_P25V_current (ul : UserLimits) (s : SupplyState) (curr : ℚ) :
    OpResult Unit :=
  if FACTORY_MIN_P25V_CURRENT ≤ curr ∧ curr ≤ FACTORY_MAX_P25V_CURRENT then
    if ul.USER_MIN_P25V_CURRENT ≤ curr ∧ curr ≤ ul.USER_MAX_P25V_CURRENT then
      let curr := pyRound curr SUPPLY_RESOLVED_DIGITS
      let s' := { s with P25V_current := curr }
      match generate_apply_command "P25V" (.num s'.P25V_voltage)
          (.num s'.P25V_current) false with
      | .ok command => ⟨s', [command], .ok ()⟩
      | .error e => ⟨s', [], .error e⟩
    else
      ⟨s, [], .error (.userLimit "P25V" "V" curr
        ul.USER_MIN_P25V_CURRENT ul.USER_MAX_P25V_CURRENT)⟩
  else
    ⟨s, [], .error (.factoryLimit "P25V" "A" curr
      FACTORY_MIN_P25V_CURRENT FACTORY_MAX_P25V_CURRENT)⟩

/-- `set_N25V_voltage`.  Faithful to the source, both range checks read
the `*_MAX_N25V_VOLTAGE` bound on BOTH sides of the chained comparison
(`_FACTORY_MAX_N25V_VOLTAGE <= volt <= _FACTORY_MAX_N25V_VOLTAGE` and
`USER_MAX_N25V_VOLTAGE <= volt <= USER_MAX_N25V_VOLTAGE`); the `MIN`
constants are never consulted, and the factory error message also
interpolates the max bound in the `min` slot. -/
def set_N25V_voltage (ul : UserLimits) (s : SupplyState) (volt : ℚ) :
    OpResult Unit :=
  if FACTORY_MAX_N25V_VOLTAGE ≤ volt ∧ volt ≤ FACTORY_MAX_N25V_VOLTAGE then
    if ul.USER_MAX_N25V_VOLTAGE ≤ volt ∧ volt ≤ ul.USER_MAX_N25V_VOLTAGE then
      let volt := pyRound volt SUPPLY_RESOLVED_DIGITS
      let s' := { s with N25V_voltage := volt }
      match generate_apply_command "N25V" (.num s'.N25V_voltage)
          (.num s'.N25V_current) false with
      | .ok command => ⟨s', [command], .ok ()⟩
      | .error e => ⟨s', [], .error e⟩
    else
      ⟨s, [], .error (.userLimit "N25V" "V" volt
        ul.USER_MAX_N25V_VOLTAGE ul.USER_MAX_N25V_VOLTAGE)⟩
  else
    ⟨s, [], .error (.factoryLimit "N25V" "V" volt
      FACTORY_MAX_N25V_VOLTAGE FACTORY_MAX_N25V_VOLTAGE)⟩

def set_N25V_current (ul : UserLimits) (s : SupplyState) (curr : ℚ) :
    OpResult Unit :=
  if FACTORY_MIN_N25V_CURRENT ≤ curr ∧ curr ≤ FACTORY_MAX_N25V_CURRENT then
    if ul.USER_MIN_N25V_CURRENT ≤ curr ∧ curr ≤ ul.USER_MAX_N25V_CURRENT then
      let curr := pyRound curr SUPPLY_RESOLVED_DIGITS
      let s' := { s with N25V_current := curr }
      match generate_apply_command "N25V" (.num s'.N25V_voltage)
          (.num s'.N25V_current) false with
      | .ok command => ⟨s', [command], .ok ()⟩
      | .error e => ⟨s', [], .error e⟩
    else
      ⟨s, [], .error (.userLimit "N25V" "V" curr
        ul.USER_MIN_N25V_CURRENT ul.USER_MAX_N25V_CURRENT)⟩
  else
    ⟨s, [], .error (.factoryLimit "N25V" "A" curr
      FACTORY_MIN_N25V_CURRENT FACTORY_MAX_N25V_CURRENT)⟩

/-! ### Channel controller: the six `get_*` methods

A `get_*` method builds the request command, sends it, and processes
the device's reply; the reply (already put through the
`send_scpi_command` decoding) is an explicit argument of the model.
The reply is split on `','` and must unpack into exactly two fields;
the selected field is stripped of double quotes, parsed by `float`,
and compared with the mirror via `math.isclose` — a mismatch raises
`AssertionError`, a match returns the supply-reported value. -/

/-- `s.strip('"')`: drop every leading and trailing `'"'`. -/
def pyStripQuotes (s : String) : String :=
  String.mk (((s.data.dropWhile (· == '"')).reverse.dropWhile
    (· == '"')).reverse)

def get_P6V_voltage (s : SupplyState) (reply : String) : OpResult ℚ :=
  match generate_apply_command "P6V" .none .none true with
  | .error e => ⟨s, [], .error e⟩
  | .ok request_command =>
    match pySplitComma reply with
    | [volt, _] =>
      let volt := pyStripQuotes volt
      match parseFloat volt with
      | Option.none => ⟨s, [request_command], .error (.floatParse volt)⟩
      | some supply_voltage =>
        if pyIsClose supply_voltage s.P6V_voltage then
          ⟨s, [request_command], .ok supply_voltage⟩
        else
          ⟨s, [request_command], .error (.assertionFailed "P6V" "voltage"
            s.P6V_voltage supply_voltage)⟩
    | _ => ⟨s, [request_command], .error .unpackMismatch⟩

def get_P6V_current (s : SupplyState) (reply : String) : OpResult ℚ :=
  match generate_apply_command "P6V" .none .none true with
  | .error e => ⟨s, [], .error e⟩
  | .ok request_command =>
    match pySplitComma reply with
    | [_, curr] =>
      let curr := pyStripQuotes curr
      match parseFloat curr with
      | Option.none => ⟨s, [request_command], .error (.floatParse curr)⟩
      | some supply_current =>
        if pyIsClose supply_current s.P6V_current then
          ⟨s, [request_command], .ok supply_current⟩
        else
          ⟨s, [request_command], .error (.assertionFailed "P6V" "current"
            s.P6V_current supply_current)⟩
    | _ => ⟨s, [request_command], .error .unpackMismatch⟩

def get_P25V_voltage (s : SupplyState) (reply : String) : OpResult ℚ :=
  match generate_apply_command "P25V" .none .none true with
  | .error e => ⟨s, [], .error e⟩
  | .ok request_command =>
    match pySplitComma reply with
    | [volt, _] =>
      let volt := pyStripQuotes volt
      match parseFloat volt with
      | Option.none => ⟨s, [request_command], .error (.floatParse volt)⟩
      | some supply_voltage =>
        if pyIsClose supply_voltage s.P25V_voltage then
          ⟨s, [request_command], .ok supply_voltage⟩
        else
          ⟨s, [request_command], .error (.assertionFailed "P25V" "voltage"
            s.P25V_voltage supply_voltage)⟩
    | _ => ⟨s, [request_command], .error .unpackMismatch⟩

def get_P25V_current (s : SupplyState) (reply : String) : OpResult ℚ :=
  match generate_apply_command "P25V" .none .none true with
  | .error e => ⟨s, [], .error e⟩
  | .ok request_command =>
    match pySplitComma reply with
    | [_, curr] =>
      let curr := pyStripQuotes curr
      match parseFloat curr with
      | Option.none => ⟨s, [request_command], .error (.floatParse curr)⟩
      | some supply_current =>
        if pyIsClose supply_current s.P25V_current then
          ⟨s, [request_command], .ok supply_current⟩
        else
          ⟨s, [request_command], .error (.assertionFailed "P25V" "current"
            s.P25V_current supply_current)⟩
    | _ => ⟨s, [request_command], .error .unpackMismatch⟩

def get_N25V_voltage (s : SupplyState) (reply : String) : OpResult ℚ :=
  match generate_apply_command "N25V" .none .none true with
  | .error e => ⟨s, [], .error e⟩
  | .ok request_command =>
    match pySplitComma reply with
    | [volt, _] =>
      let volt := pyStripQuotes volt
      match parseFloat volt with
      | Option.none => ⟨s, [request_command], .error (.floatParse volt)⟩
      | some supply_voltage =>
        if pyIsClose supply_voltage s.N25V_voltage then
          ⟨s, [request_command], .ok supply_voltage⟩
        else
          ⟨s, [request_command], .error (.assertionFailed "N25V" "voltage"
            s.N25V_voltage supply_voltage)⟩
    | _ => ⟨s, [request_command], .error .unpackMismatch⟩

def get_N25V_current (s : SupplyState) (reply : String) : OpResult ℚ :=
  match generate_apply_command "N25V" .none .none true with
  | .error e => ⟨s, [], .error e⟩
  | .ok request_command =>
    match pySplitComma reply with
    | [_, curr] =>
      let curr := pyStripQuotes curr
      match parseFloat curr with
      | Option.none => ⟨s, [request_command], .error (.floatParse curr)⟩
      | some supply_current =>
        if pyIsClose supply_current s.N25V_current then
          ⟨s, [request_command], .ok supply_current⟩
        else
          ⟨s, [request_command], .error (.assertionFailed "N25V" "current"
            s.N25V_current supply_current)⟩
    | _ => ⟨s, [request_command], .error .unpackMismatch⟩

/-! ### Channel controller: the six `del_*` methods -/

def del_P6V_voltage (s : SupplyState) : OpResult Unit :=
  ⟨s, [], .error (.runtimeDelete
    "You cannot delete the P6V voltage of your power supply.")⟩

def del_P6V_current (s : SupplyState) : OpResult Unit :=
  ⟨s, [], .error (.runtimeDelete
    "You cannot delete the P6V current of your power supply.")⟩

def del_P25V_voltage (s : SupplyState) : OpResult Unit :=
  ⟨s, [], .error (.runtimeDelete
    "You cannot delete the P25V voltage of your power supply.")⟩

def del_P25V_current (s : SupplyState) : OpResult Unit :=
  ⟨s, [], .error (.runtimeDelete
    "You cannot delete the P25V current of your power supply.")⟩

def del_N25V_voltage (s : SupplyState) : OpResult Unit :=
  ⟨s, [], .error (.runtimeDelete
    "You cannot delete the N25V voltage of your power supply.")⟩

def del_N25V_current (s : SupplyState) : OpResult Unit :=
  ⟨s, [], .error (.runtimeDelete
    "You cannot delete the N25V current of your power supply.")⟩

/-! ### Dispatchers over (channel, kind) -/

/-- The `set_*` method of a (channel, kind). -/
def setOp : Channel → Kind →
    UserLimits → SupplyState → ℚ → OpResult Unit
  | .P6V, .voltage => set_P6V_voltage
  | .P6V, .current => set_P6V_current
  | .P25V, .voltage => set_P25V_voltage
  | .P25V, .current => set_P25V_current
  | .N25V, .voltage => set_N25V_voltage
  | .N25V, .current => set_N25V_current

/-- The `get_*` method of a (channel, kind). -/
def getOp : Channel → Kind → SupplyState → String → OpResult ℚ
  | .P6V, .voltage => get_P6V_voltage
  | .P6V, .current => get_P6V_current
  | .P25V, .voltage => get_P25V_voltage
  | .P25V, .current => get_P25V_current
  | .N25V, .voltage => get_N25V_voltage
  | .N25V, .current => get_N25V_current

/-- The `del_*` method of a (channel, kind). -/
def delOp : Channel → Kind → SupplyState → OpResult Unit
  | .P6V, .voltage => del_P6V_voltage
  | .P6V, .current => del_P6V_current
  | .P25V, .voltage => del_P25V_voltage
  | .P25V, .current => del_P25V_current
  | .N25V, .voltage => del_N25V_voltage
  | .N25V, .current => del_N25V_current

/-- The mirrored setpoint of a (channel, kind) in a state. -/
def mirror (s : SupplyState) : Channel → Kind → ℚ
  | .P6V, .voltage => s.P6V_voltage
  | .P6V, .current => s.P6V_current
  | .P25V, .voltage => s.P25V_voltage
  | .P25V, .current => s.P25V_current
  | .N25V, .voltage => s.N25V_voltage
  | .N25V, .current => s.N25V_current

/-- Overwrite the mirrored setpoint of a (channel, kind). -/
def setMirror (s : SupplyState) : Channel → Kind → ℚ → SupplyState
  | .P6V, .voltage, v => { s with P6V_voltage := v }
  | .P6V, .current, v => { s with P6V_current := v }
  | .P25V, .voltage, v => { s with P25V_voltage := v }
  | .P25V, .current, v => { s with P25V_current := v }
  | .N25V, .voltage, v => { s with N25V_voltage := v }
  | .N25V, .current, v => { s with N25V_current := v }

/-- The pair of range checks a `set_*` method performs, as the source
wrote them (so for N25V voltage both read the `MAX` bound twice). -/
def validateSet (ul : UserLimits) : Channel → Kind → ℚ → Bool
  | .P6V, .voltage, v =>
      decide (FACTORY_MIN_P6V_VOLTAGE ≤ v ∧ v ≤ FACTORY_MAX_P6V_VOLTAGE)
        && decide (ul.USER_MIN_P6V_VOLTAGE ≤ v ∧ v ≤ ul.USER_MAX_P6V_VOLTAGE)
  | .P6V, .current, v =>
      decide (FACTORY_MIN_P6V_CURRENT ≤ v ∧ v ≤ FACTORY_MAX_P6V_CURRENT)
        && decide (ul.USER_MIN_P6V_CURRENT ≤ v ∧ v ≤ ul.USER_MAX_P6V_CURRENT)
  | .P25V, .voltage, v =>
      decide (FACTORY_MIN_P25V_VOLTAGE ≤ v ∧ v ≤ FACTORY_MAX_P25V_VOLTAGE)
        && decide (ul.USER_MIN_P25V_VOLTAGE ≤ v ∧ v ≤ ul.USER_MAX_P25V_VOLTAGE)
  | .P25V, .current, v =>
      decide (FACTORY_MIN_P25V_CURRENT ≤ v ∧ v ≤ FACTORY_MAX_P25V_CURRENT)
        && decide (ul.USER_MIN_P25V_CURRENT ≤ v ∧ v ≤ ul.USER_MAX_P25V_CURRENT)
  | .N25V, .voltage, v =>
      decide (FACTORY_MAX_N25V_VOLTAGE ≤ v ∧ v ≤ FACTORY_MAX_N25V_VOLTAGE)
        && decide (ul.USER_MAX_N25V_VOLTAGE ≤ v ∧ v ≤ ul.USER_MAX_N25V_VOLTAGE)
  | .N25V, .current, v =>
      decide (FACTORY_MIN_N25V_CURRENT ≤ v ∧ v ≤ FACTORY_MAX_N25V_CURRENT)
        && decide (ul.USER_MIN_N25V_CURRENT ≤ v ∧ v ≤ ul.USER_MAX_N25V_CURRENT)

/-- Select the field of the decoded `APPLy?` pair a `get_*` method
inspects: the first for voltage, the second for current. -/
def kindSelect (k : Kind) (volt curr : String) : String :=
  match k with
  | .voltage => volt
  | .current => curr

/-- The well-formed codec arguments named by the specification:
`None`, a (case-insensitive) `DEF`/`MIN`/`MAX` token, or a number. -/
def wellFormedArg (v : PyVal) : Prop :=
  v = PyVal.none
    ∨ (∃ s, v = PyVal.str s ∧ pyUpper s ∈ ["DEF", "MIN", "MAX"])
    ∨ ∃ q, v = PyVal.num q

/-- Modelled from the spec's words, for the refinement comparison of
the codec's per-argument rendering: empty for `None`, the upper-cased
token for a token, and six-decimal fixed point for a number. -/
def renderValSpec : PyVal → String
  | .none => ""
  | .str s => pyUpper s
  | .num q => format6f q

/-! ### Helper lemmas -/

theorem length_pad6 (n : ℕ) : (pad6 n).length = 6 := rfl

theorem format6f_length (q : ℚ) : 7 ≤ (format6f q).length := by
  unfold format6f
  simp only [String.length_append, length_pad6]
  have hdot : ("." : String).length = 1 := rfl
  split <;> omega

theorem format6f_not_token (q : ℚ) : format6f q ∉ applyTokens := by
  intro h
  have h7 := format6f_length q
  simp only [applyTokens, List.mem_cons, List.not_mem_nil, or_false] at h
  rcases h with h | h | h | h <;> rw [h] at h7 <;> revert h7 <;> decide

theorem renderVal_num (q : ℚ) :
    renderVal (.num q) = .ok (format6f q) := by
  unfold renderVal
  rw [if_neg]
  · rfl
  · rintro (h | h)
    · exact format6f_not_token q h
    · exact PyVal.noConfusion h

theorem renderVal_wf (v : PyVal) (h : wellFormedArg v) :
    renderVal v = .ok (renderValSpec v) := by
  rcases h with h | ⟨s, h, hs⟩ | ⟨q, h⟩ <;> subst h
  · rfl
  · unfold renderVal
    rw [if_pos]
    · rfl
    · left
      simp only [applyTokens, pyStrUpper, List.mem_cons]
      simp only [List.mem_cons, List.not_mem_nil, or_false] at hs
      tauto
  · exact renderVal_num q

theorem pyUpper_of_channel (out : String)
    (h : out ∈ ["P6V", "P25V", "N25V"]) : pyUpper out = out := by
  simp only [List.mem_cons, List.not_mem_nil, or_false] at h
  rcases h with h | h | h <;> subst h <;> decide

theorem generate_apply_num (out : String)
    (h : out ∈ ["P6V", "P25V", "N25V"]) (a b : ℚ) :
    generate_apply_command out (.num a) (.num b) false
      = .ok ("APPLy " ++ out ++ "," ++ format6f a ++ "," ++ format6f b) := by
  unfold generate_apply_command
  rw [pyUpper_of_channel out h, if_pos h, renderVal_num, renderVal_num]
  rfl

theorem generate_apply_request (out : String)
    (h : out ∈ ["P6V", "P25V", "N25V"]) (vo co : PyVal)
    (hvo : wellFormedArg vo) (hco : wellFormedArg co) :
    generate_apply_command out vo co true = .ok ("APPLy? " ++ out) := by
  unfold generate_apply_command
  rw [pyUpper_of_channel out h, if_pos h, renderVal_wf vo hvo,
    renderVal_wf co hco]
  rfl

theorem channelStr_mem (ch : Channel) :
    channelStr ch ∈ ["P6V", "P25V", "N25V"] := by
  cases ch <;> simp [channelStr]

theorem setMirror_setMirror (s : SupplyState) (ch : Channel) (k : Kind)
    (x : ℚ) : setMirror (setMirror s ch k x) ch k x = setMirror s ch k x := by
  cases ch <;> cases k <;> rfl

/-- The success path shared by all six `set_*` methods: when both
range checks pass, the mirror of the addressed (channel, kind) is
overwritten with the value rounded to four digits, and the single
command sent is the non-request `APPLy` built from the updated
mirrored voltage and current of that channel. -/
theorem setOp_valid (ul : UserLimits) (ch : Channel) (k : Kind)
    (v : ℚ) (s : SupplyState) (h : validateSet ul ch k v = true) :
    setOp ch k ul s v =
      ⟨setMirror s ch k (pyRound v SUPPLY_RESOLVED_DIGITS),
       ["APPLy " ++ channelStr ch ++ ","
         ++ format6f (mirror (setMirror s ch k
              (pyRound v SUPPLY_RESOLVED_DIGITS)) ch Kind.voltage)
         ++ ","
         ++ format6f (mirror (setMirror s ch k
              (pyRound v SUPPLY_RESOLVED_DIGITS)) ch Kind.current)],
       .ok ()⟩ := by
  cases ch <;> cases k <;>
  · simp only [validateSet, Bool.and_eq_true, decide_eq_true_eq] at h
    obtain ⟨h1, h2⟩ := h
    simp only [setOp, set_P6V_voltage, set_P6V_current, set_P25V_voltage,
      set_P25V_current, set_N25V_voltage, set_N25V_current,
      if_pos h1, if_pos h2]
    rw [generate_apply_num _ (by simp) _ _]
    rfl

/-- The failure path shared by all six `set_*` methods: when a range
check fails, the method raises with the state untouched and nothing
sent. -/
theorem setOp_invalid (ul : UserLimits) (ch : Channel) (k : Kind)
    (v : ℚ) (s : SupplyState) (h : validateSet ul ch k v = false) :
    (setOp ch k ul s v).state = s ∧ (setOp ch k ul s v).sent = []
      ∧ ∃ e, (setOp ch k ul s v).result = .error e := by
  cases ch <;> cases k <;>
  · simp only [validateSet, Bool.and_eq_false_iff, decide_eq_false_iff_not] at h
    simp only [setOp, set_P6V_voltage, set_P6V_current, set_P25V_voltage,
      set_P25V_current, set_N25V_voltage, set_N25V_current]
    rcases h with h | h
    · rw [if_neg h]
      exact ⟨rfl, rfl, _, rfl⟩
    · split
      all_goals exact ⟨rfl, rfl, _, rfl⟩

theorem req_P6V :
    generate_apply_command "P6V" .none .none true = .ok "APPLy? P6V" := rfl

theorem req_P25V :
    generate_apply_command "P25V" .none .none true = .ok "APPLy? P25V" := rfl

theorem req_N25V :
    generate_apply_command "N25V" .none .none true = .ok "APPLy? N25V" := rfl

/-- The common shape of all six `get_*` methods once the reply has
split into exactly two fields and the selected field has parsed: the
request command is the one command sent, the state is untouched, and
the outcome is the supply value when it is `isclose` to the mirror and
the assertion failure otherwise. -/
theorem getOp_spec (ch : Channel) (k : Kind) (s : SupplyState)
    (reply f0 f1 : String) (dv : ℚ)
    (hsplit : pySplitComma reply = [f0, f1])
    (hparse : parseFloat (pyStripQuotes (kindSelect k f0 f1)) = some dv) :
    getOp ch k s reply =
      ⟨s, ["APPLy? " ++ channelStr ch],
       if pyIsClose dv (mirror s ch k) then .ok dv
       else .error (.assertionFailed (channelStr ch) (kindStr k)
         (mirror s ch k) dv)⟩ := by
  cases ch <;> cases k <;>
  · simp only [kindSelect] at hparse
    simp only [getOp, get_P6V_voltage, get_P6V_current, get_P25V_voltage,
      get_P25V_current, get_N25V_voltage, get_N25V_current,
      req_P6V, req_P25V, req_N25V, hsplit, hparse,
      channelStr, kindStr, mirror]
    split <;> rfl

/-- Every `get_*` method fed an empty reply (the empty-read surface of
an unresponsive device) raises the unpack `ValueError` after sending
the request command, before any consistency check. -/
theorem getOp_empty (ch : Channel) (k : Kind) (s : SupplyState) :
    getOp ch k s "" =
      ⟨s, ["APPLy? " ++ channelStr ch], .error .unpackMismatch⟩ := by
  cases ch <;> cases k <;> rfl

theorem roundHalfEven_intCast (n : ℤ) : roundHalfEven (n : ℚ) = n := by
  simp only [roundHalfEven, Int.floor_intCast, sub_self]
  norm_num

theorem format6f_val (q : ℚ) (n : ℤ) (h : q * 1000000 = (n : ℚ)) :
    format6f q = (if n < 0 then "-" else "")
      ++ Nat.repr (n.natAbs / 1000000) ++ "." ++ pad6 (n.natAbs % 1000000) := by
  unfold format6f
  rw [h, roundHalfEven_intCast]

/-! ### Claims -/

/-- C1: the claim that, for every channel and kind, validation accepts a
value exactly when it lies inside both the (inclusive) factory range and
the (inclusive) user range fails on the code: `-5` volts lies inside the
N25V factory voltage range `[-25, 0]` and inside the default user range,
yet `set_N25V_voltage` rejects it with the factory-limit `ValueError`,
because both of its chained comparisons read the `MAX` bound on each
side.  Nothing is sent and the state is left unchanged. -/
theorem C1_N25V_validation_defect :
    (FACTORY_MIN_N25V_VOLTAGE ≤ (-5 : ℚ)
      ∧ (-5 : ℚ) ≤ FACTORY_MAX_N25V_VOLTAGE)
    ∧ (defaultUserLimits.USER_MIN_N25V_VOLTAGE ≤ (-5 : ℚ)
      ∧ (-5 : ℚ) ≤ defaultUserLimits.USER_MAX_N25V_VOLTAGE)
    ∧ set_N25V_voltage defaultUserLimits initState (-5)
      = ⟨initState, [], .error (.factoryLimit "N25V" "V" (-5)
          FACTORY_MAX_N25V_VOLTAGE FACTORY_MAX_N25V_VOLTAGE)⟩ := by
  refine ⟨by decide, by decide, ?_⟩
  unfold set_N25V_voltage
  rw [if_neg (by decide)]

/-- C2: setting the N25V voltage to `0.1` is rejected by the factory-limit
`ValueError` before anything is sent and with the state untouched, for
every current user-limit configuration and prior state, and `0.1` indeed
exceeds the upper factory bound of the N25V voltage range. -/
theorem C2_N25V_set_point_one_rejected (ul : UserLimits) (s : SupplyState) :
    set_N25V_voltage ul s (1/10)
      = ⟨s, [], .error (.factoryLimit "N25V" "V" (1/10)
          FACTORY_MAX_N25V_VOLTAGE FACTORY_MAX_N25V_VOLTAGE)⟩
    ∧ FACTORY_MAX_N25V_VOLTAGE < 1/10 := by
  constructor
  · unfold set_N25V_voltage
    rw [if_neg (by norm_num [FACTORY_MAX_N25V_VOLTAGE])]
  · norm_num [FACTORY_MAX_N25V_VOLTAGE]

/-- C3: for every channel, kind and value that passes the (unrounded)
range validation, `set` updates exactly the addressed mirror with the
value rounded to four decimal digits and sends the single non-request
`APPLy` command built from the just-updated mirror: the rounded just-set
field together with the stored value of the other field. -/
theorem C3_set_pipeline (ul : UserLimits) (ch : Channel) (k : Kind)
    (v : ℚ) (s : SupplyState) (h : validateSet ul ch k v = true) :
    setOp ch k ul s v =
      ⟨setMirror s ch k (pyRound v SUPPLY_RESOLVED_DIGITS),
       ["APPLy " ++ channelStr ch ++ ","
         ++ format6f (mirror (setMirror s ch k
              (pyRound v SUPPLY_RESOLVED_DIGITS)) ch Kind.voltage)
         ++ ","
         ++ format6f (mirror (setMirror s ch k
              (pyRound v SUPPLY_RESOLVED_DIGITS)) ch Kind.current)],
       .ok ()⟩ :=
  setOp_valid ul ch k v s h

/-- Witness for C3 at P6V voltage 5 from the initial state. -/
theorem C3_set_pipeline_witness :
    validateSet defaultUserLimits .P6V .voltage 5 = true
    ∧ setOp .P6V .voltage defaultUserLimits initState 5 =
      ⟨setMirror initState .P6V .voltage (pyRound 5 SUPPLY_RESOLVED_DIGITS),
       ["APPLy " ++ channelStr .P6V ++ ","
         ++ format6f (mirror (setMirror initState .P6V .voltage
              (pyRound 5 SUPPLY_RESOLVED_DIGITS)) .P6V Kind.voltage)
         ++ ","
         ++ format6f (mirror (setMirror initState .P6V .voltage
              (pyRound 5 SUPPLY_RESOLVED_DIGITS)) .P6V Kind.current)],
       .ok ()⟩ :=
  ⟨by decide,
   C3_set_pipeline defaultUserLimits .P6V .voltage 5 initState (by decide)⟩

/-- C4: provided the reply splits into exactly two fields and the selected
field parses, every `get` sends the request-form `APPLy?` command and then
raises the drift assertion exactly when the device value is not
`math.isclose` to the mirrored value, returning the device value when it
is close. -/
theorem C4_get_consistency (ch : Channel) (k : Kind) (s : SupplyState)
    (reply f0 f1 : String) (dv : ℚ)
    (hsplit : pySplitComma reply = [f0, f1])
    (hparse : parseFloat (pyStripQuotes (kindSelect k f0 f1)) = some dv) :
    (getOp ch k s reply).sent = ["APPLy? " ++ channelStr ch]
    ∧ ((getOp ch k s reply).result
        = .error (.assertionFailed (channelStr ch) (kindStr k)
            (mirror s ch k) dv)
      ↔ pyIsClose dv (mirror s ch k) = false)
    ∧ (pyIsClose dv (mirror s ch k) = true
        → (getOp ch k s reply).result = .ok dv) := by
  rw [getOp_spec ch k s reply f0 f1 dv hsplit hparse]
  cases hcl : pyIsClose dv (mirror s ch k) <;> simp [hcl]

/-- Witness for C4 at P6V voltage with mirror 5 and device reply `5,1`. -/
theorem C4_get_consistency_witness :
    pySplitComma "5,1" = ["5", "1"]
    ∧ parseFloat (pyStripQuotes (kindSelect .voltage "5" "1")) = some 5
    ∧ ((getOp .P6V .voltage ⟨5, 0, 0, 0, 0, 0⟩ "5,1").sent
        = ["APPLy? " ++ channelStr .P6V]
      ∧ ((getOp .P6V .voltage ⟨5, 0, 0, 0, 0, 0⟩ "5,1").result
          = .error (.assertionFailed (channelStr .P6V) (kindStr .voltage)
              (mirror ⟨5, 0, 0, 0, 0, 0⟩ .P6V .voltage) 5)
        ↔ pyIsClose 5 (mirror ⟨5, 0, 0, 0, 0, 0⟩ .P6V .voltage) = false)
      ∧ (pyIsClose 5 (mirror ⟨5, 0, 0, 0, 0, 0⟩ .P6V .voltage) = true
          → (getOp .P6V .voltage ⟨5, 0, 0, 0, 0, 0⟩ "5,1").result
              = .ok 5)) :=
  ⟨by decide, by decide,
   C4_get_consistency .P6V .voltage ⟨5, 0, 0, 0, 0, 0⟩ "5,1" "5" "1" 5
     (by decide) (by decide)⟩

/-- C5: a `set` that fails validation raises with nothing sent and the
whole prior channel state unmodified; and repeating a valid `set` with
the same value reproduces the identical wire command and final state. -/
theorem C5_set_failure_and_idempotence (ul : UserLimits) (ch : Channel)
    (k : Kind) (v : ℚ) (s : SupplyState) :
    (validateSet ul ch k v = false →
      (setOp ch k ul s v).state = s ∧ (setOp ch k ul s v).sent = []
      ∧ ∃ e, (setOp ch k ul s v).result = .error e)
    ∧ (validateSet ul ch k v = true →
      setOp ch k ul (setOp ch k ul s v).state v = setOp ch k ul s v) := by
  constructor
  · exact setOp_invalid ul ch k v s
  · intro h
    have h1 := setOp_valid ul ch k v s h
    have h2 := setOp_valid ul ch k v
      (setMirror s ch k (pyRound v SUPPLY_RESOLVED_DIGITS)) h
    simp only [h1, h2, setMirror_setMirror]

/-- Witness for C5: P6V voltage 7 is rejected without effect; P6V
voltage 5 is idempotent from the initial state. -/
theorem C5_set_failure_and_idempotence_witness :
    (validateSet defaultUserLimits .P6V .voltage 7 = false
      ∧ ((setOp .P6V .voltage defaultUserLimits initState 7).state = initState
        ∧ (setOp .P6V .voltage defaultUserLimits initState 7).sent = []
        ∧ ∃ e, (setOp .P6V .voltage defaultUserLimits initState 7).result
            = .error e))
    ∧ (validateSet defaultUserLimits .P6V .voltage 5 = true
      ∧ setOp .P6V .voltage defaultUserLimits
          (setOp .P6V .voltage defaultUserLimits initState 5).state 5
        = setOp .P6V .voltage defaultUserLimits initState 5) :=
  ⟨⟨by decide,
    (C5_set_failure_and_idempotence defaultUserLimits .P6V .voltage 7
      initState).1 (by decide)⟩,
   ⟨by decide,
    (C5_set_failure_and_idempotence defaultUserLimits .P6V .voltage 5
      initState).2 (by decide)⟩⟩

/-- C6: the claim that a no-timeout session is accepted at construction
fails on the code: `int(None)` raises `TypeError`, so the stored timeout
is always an integer and the executor's substitution branch (which would
bound a `None` timeout by the 15-unit default for one read and then
restore it) is unreachable. -/
theorem C6_infinite_timeout_unconstructible :
    init_serial_timeout Option.none = .error .typeErrorIntNone
    ∧ (∀ t : ℤ, init_serial_timeout (some t) = .ok t)
    ∧ send_raw_timeouts Option.none = (some DEFAULT_TIMEOUT, Option.none)
    ∧ (∀ t : ℤ, send_raw_timeouts (some t) = (some t, some t)) :=
  ⟨rfl, fun _ => rfl, rfl, fun _ => rfl⟩

/-- C7: in non-request mode, for every valid channel and arguments that
are `None`, a case-insensitive `DEF`/`MIN`/`MAX` token, or numeric, the
codec renders each argument independently (empty for `None`, upper-cased
token, or six-decimal fixed point) into
`APPLy {channel},{voltage},{current}`; in particular P6V with 3.3 V and
1.0 A yields `APPLy P6V,3.300000,1.000000`. -/
theorem C7_encode_nonrequest :
    (∀ (out : String) (vo co : PyVal), out ∈ ["P6V", "P25V", "N25V"] →
      wellFormedArg vo → wellFormedArg co →
      generate_apply_command out vo co false
        = .ok ("APPLy " ++ out ++ "," ++ renderValSpec vo ++ ","
            ++ renderValSpec co))
    ∧ generate_apply_command "P6V" (.num (33/10)) (.num 1) false
        = .ok "APPLy P6V,3.300000,1.000000" := by
  constructor
  · intro out vo co hout hvo hco
    unfold generate_apply_command
    rw [pyUpper_of_channel out hout, if_pos hout, renderVal_wf vo hvo,
      renderVal_wf co hco]
    rfl
  · have h1 : format6f (33/10 : ℚ) = "3.300000" := by
      rw [format6f_val (33/10) 3300000 (by norm_num)]
      decide
    have h2 : format6f (1 : ℚ) = "1.000000" := by
      rw [format6f_val 1 1000000 (by norm_num)]
      decide
    rw [generate_apply_num "P6V" (by decide) (33/10) 1, h1, h2]
    rfl

/-- Witness for C7 at P25V with a lower-case token and `None`. -/
theorem C7_encode_nonrequest_witness :
    ("P25V" ∈ ["P6V", "P25V", "N25V"]) ∧ wellFormedArg (.str "def")
    ∧ wellFormedArg PyVal.none
    ∧ generate_apply_command "P25V" (.str "def") PyVal.none false
      = .ok ("APPLy " ++ "P25V" ++ "," ++ renderValSpec (.str "def") ++ ","
          ++ renderValSpec PyVal.none) :=
  ⟨by decide, Or.inr (Or.inl ⟨"def", rfl, by decide⟩), Or.inl rfl,
   C7_encode_nonrequest.1 "P25V" (.str "def") PyVal.none (by decide)
     (Or.inr (Or.inl ⟨"def", rfl, by decide⟩)) (Or.inl rfl)⟩

/-- C8 as stated is false: the request form does not succeed for every
voltage/current argument, because both arguments are rendered before the
request flag is consulted — a voltage string that is neither empty, a
token, nor numeric makes `float` raise even though `is_request` is true. -/
theorem C8_counterexample :
    generate_apply_command "P25V" (.str "x") PyVal.none true
      = .error (.floatParse "x") := by
  decide

/-- C8 (amended): with the request flag true, for every valid channel and
voltage/current arguments that are `None`, a `DEF`/`MIN`/`MAX` token, or
numeric, the codec emits exactly `APPLy? {channel}`, independent of those
arguments. -/
theorem C8_request_form (out : String) (vo co : PyVal)
    (hout : out ∈ ["P6V", "P25V", "N25V"])
    (hvo : wellFormedArg vo) (hco : wellFormedArg co) :
    generate_apply_command out vo co true = .ok ("APPLy? " ++ out) :=
  generate_apply_request out hout vo co hvo hco

/-- Witness for C8 (amended) at P25V with both arguments `None`. -/
theorem C8_request_form_witness :
    ("P25V" ∈ ["P6V", "P25V", "N25V"]) ∧ wellFormedArg PyVal.none
    ∧ generate_apply_command "P25V" PyVal.none PyVal.none true
      = .ok ("APPLy? " ++ "P25V") :=
  ⟨by decide, Or.inl rfl,
   C8_request_form "P25V" PyVal.none PyVal.none (by decide)
     (Or.inl rfl) (Or.inl rfl)⟩

/-- C9: `delete` on every channel and kind raises the `RuntimeError`
with nothing sent to the transport and the state unmodified. -/
theorem C9_delete_unsupported (ch : Channel) (k : Kind) (s : SupplyState) :
    (delOp ch k s).state = s ∧ (delOp ch k s).sent = []
    ∧ ∃ msg, (delOp ch k s).result = .error (.runtimeDelete msg) := by
  cases ch <;> cases k <;> exact ⟨rfl, rfl, _, rfl⟩

/-- C10: a zero-byte device read surfaces as the empty decoded response,
and every `get` fed it raises the unpack `ValueError` right after
sending the request command — never a drift assertion, never a value. -/
theorem C10_empty_reply_malformed (ch : Channel) (k : Kind)
    (s : SupplyState) :
    decode_response "" = ""
    ∧ getOp ch k s (decode_response "")
      = ⟨s, ["APPLy? " ++ channelStr ch], .error .unpackMismatch⟩ := by
  refine ⟨rfl, ?_⟩
  rw [show decode_response "" = "" from rfl]
  exact getOp_empty ch k s

end E3631A
